import Mathlib

/-!
Verification development for the S3 → Lambda → SNS image-thumbnail pipeline.

The repository holds two Python implementations of the same Lambda handler:
`src/docs/lambda-function.py` (the full implementation, with per-record
error isolation and a best-effort fatal notification) and `src/lamcode.py`
(a simplified variant with a single try/except around the whole batch).

This file gives a shallow embedding of both handlers and of the image
transformer, and settles the specification claims against them:

* Path / key derivation (`os.path.splitext`, `os.path.basename`) is
  modelled character-exactly over `List Char`, following CPython's
  `genericpath._splitext` and `posixpath.basename`.
* The batch orchestrator is modelled as a pure function over a `World`
  of collaborator oracles (S3 get/put, PIL decode/resize/encode, SNS
  publish), each of which may fail with a Python-style exception
  (`PyErr`).  Python exception propagation becomes explicit `Except`
  plumbing whose try/except structure mirrors the source line by line.
  Every collaborator call is recorded in an action log (`Act`) so that
  theorems can speak about which records were fetched, uploaded or
  notified.  SNS message bodies are long prose templates in the source;
  they are modelled structurally (`Msg`), keeping exactly the data the
  templates interpolate.
* The image transformer (PIL color-mode normalization and
  `Image.thumbnail`) is modelled concretely: pixels as RGBA quadruples,
  PIL's `paste` blending with its exact integer arithmetic
  (`MULDIV255`), and `Image.thumbnail`'s bounding-box arithmetic over
  exact rationals (the C/Python floats idealized as `ℚ`).
-/

namespace ThumbnailSpec

/-! ## Python path handling

`os.path.splitext(key)[0]` and `os.path.basename`, as used at
`src/docs/lambda-function.py:87-88` and `src/lamcode.py:34`.
-/

/-- Python `str.rfind` for a single character: the index of the last
occurrence, `-1` when the character is absent. -/
def rfindChar (c : Char) : List Char → Int
  | [] => -1
  | a :: as =>
    if rfindChar c as ≥ 0 then rfindChar c as + 1
    else if a = c then 0 else -1

/-- Scan of `genericpath._splitext`: is there an index `i` with
`lo ≤ i < hi` such that the character at `i` is not a dot?
(The Python while-loop returns the split as soon as it sees one.) -/
def hasNonDot (l : List Char) (lo hi : Int) : Bool :=
  ((l.drop lo.toNat).take (hi - lo).toNat).any (fun c => c ≠ '.')

/-- CPython `genericpath._splitext(p, '/', None, '.')`, first component:
split at the last dot that lies after the last slash, unless every
character between the last slash and that dot is a dot (leading dots of
the final component mark a hidden file, not an extension). -/
def splitextRootL (l : List Char) : List Char :=
  let sepIndex := rfindChar '/' l
  let dotIndex := rfindChar '.' l
  if sepIndex < dotIndex then
    if hasNonDot l (sepIndex + 1) dotIndex then l.take dotIndex.toNat else l
  else l

/-- CPython `posixpath.basename(p) = p[p.rfind('/') + 1:]`. -/
def basenameL (l : List Char) : List Char :=
  l.drop (rfindChar '/' l + 1).toNat

/-- Destination-key derivation of `src/docs/lambda-function.py:87-88`:
`thumbnails/{basename(splitext(key)[0])}_thumb.jpg`. -/
def thumbnailKeyL (key : List Char) : List Char :=
  ("thumbnails/").toList ++ basenameL (splitextRootL key) ++ ("_thumb.jpg").toList

/-- Destination-key derivation of `src/lamcode.py:34`:
`thumbnails/{splitext(key)[0]}_thumb.jpg` (no basename step). -/
def lamcodeThumbnailKeyL (key : List Char) : List Char :=
  ("thumbnails/").toList ++ splitextRootL key ++ ("_thumb.jpg").toList

lemma rfindChar_of_not_mem {c : Char} {l : List Char} (h : c ∉ l) :
    rfindChar c l = -1 := by
  induction l with
  | nil => rfl
  | cons a as ih =>
    have ha : ¬ a = c := fun e => h (e ▸ List.mem_cons_self a as)
    have has : c ∉ as := fun m => h (List.mem_cons_of_mem a m)
    simp [rfindChar, ih has, ha]

lemma rfindChar_nonneg_of_mem {c : Char} {l : List Char} (h : c ∈ l) :
    0 ≤ rfindChar c l := by
  induction l with
  | nil => cases h
  | cons a as ih =>
    rw [rfindChar]
    by_cases hm : c ∈ as
    · rw [if_pos (ih hm)]
      have := ih hm
      omega
    · have hac : a = c := by
        rcases List.mem_cons.mp h with h1 | h2
        · exact h1.symm
        · exact absurd h2 hm
      rw [rfindChar_of_not_mem hm]
      norm_num [hac]

lemma rfindChar_lt_length (c : Char) (l : List Char) :
    rfindChar c l < l.length := by
  induction l with
  | nil => simp [rfindChar]
  | cons a as ih =>
    rw [rfindChar]
    simp only [List.length_cons]
    split
    · push_cast
      omega
    · split <;> push_cast <;> omega

lemma rfindChar_append_not_mem {c : Char} (d : List Char) {r : List Char}
    (h : c ∉ r) : rfindChar c (d ++ r) = rfindChar c d := by
  induction d with
  | nil => simp [rfindChar, rfindChar_of_not_mem h]
  | cons a as ih => simp only [List.cons_append, rfindChar, List.append_eq, ih]

lemma rfindChar_append_mem {c : Char} (d : List Char) {r : List Char}
    (h : c ∈ r) : rfindChar c (d ++ r) = d.length + rfindChar c r := by
  induction d with
  | nil => simp
  | cons a as ih =>
    have hr : 0 ≤ rfindChar c r := rfindChar_nonneg_of_mem h
    simp only [List.cons_append, rfindChar, List.append_eq, ih, List.length_cons]
    rw [if_pos (show (as.length : Int) + rfindChar c r ≥ 0 by omega)]
    push_cast
    ring

lemma rfind_slash_cons {f : List Char} (hf : ('/' : Char) ∉ f) :
    rfindChar '/' ('/' :: f) = 0 := by
  rw [rfindChar, rfindChar_of_not_mem hf]
  rw [if_neg (by norm_num), if_pos rfl]

lemma rfind_slash_append {d f : List Char} (hf : ('/' : Char) ∉ f) :
    rfindChar '/' (d ++ '/' :: f) = d.length := by
  rw [rfindChar_append_mem d (List.mem_cons_self _ _), rfind_slash_cons hf, add_zero]

lemma drop_len_succ (d f : List Char) :
    (d ++ '/' :: f).drop (d.length + 1) = f := by
  have h : d ++ '/' :: f = (d ++ ['/']) ++ f := by simp
  rw [h]
  have h2 := List.drop_left (d ++ ['/']) f
  simp only [List.length_append, List.length_cons, List.length_nil] at h2
  exact h2

lemma take_append_cons (d f : List Char) (c : Char) (n : Nat) :
    (d ++ c :: f).take (d.length + (n + 1)) = d ++ c :: f.take n := by
  induction d with
  | nil => simp
  | cons a as ih =>
    rw [List.cons_append, List.length_cons]
    have h : as.length + 1 + (n + 1) = (as.length + (n + 1)) + 1 := by ring
    rw [h, List.take_succ_cons, ih, List.cons_append]

lemma basenameL_no_slash {f : List Char} (hf : ('/' : Char) ∉ f) :
    basenameL f = f := by
  unfold basenameL
  rw [rfindChar_of_not_mem hf]
  simp

lemma basenameL_append {d f : List Char} (hf : ('/' : Char) ∉ f) :
    basenameL (d ++ '/' :: f) = f := by
  unfold basenameL
  rw [rfind_slash_append hf]
  have h : ((d.length : Int) + 1).toNat = d.length + 1 := by omega
  rw [h, drop_len_succ]

lemma hasNonDot_shift (d f : List Char) (k : Int) :
    hasNonDot (d ++ '/' :: f) ((d.length : Int) + 1) ((d.length : Int) + (k + 1)) =
      hasNonDot f (-1 + 1) k := by
  unfold hasNonDot
  have h1 : (((d.length : Int) + 1)).toNat = d.length + 1 := by omega
  have h2 : ((d.length : Int) + (k + 1) - ((d.length : Int) + 1)) = k := by ring
  rw [h1, h2, drop_len_succ]
  norm_num

/-- Directory independence of the docs key-derivation pipeline: prefixing any
directory to a slash-free file name leaves `basename(splitext(p)[0])`
unchanged. -/
lemma basename_splitextRoot_append {d f : List Char} (hf : ('/' : Char) ∉ f) :
    basenameL (splitextRootL (d ++ '/' :: f)) = basenameL (splitextRootL f) := by
  have hsepf : rfindChar '/' f = -1 := rfindChar_of_not_mem hf
  by_cases hd : ('.' : Char) ∈ f
  · -- the last dot of the whole path sits inside `f`
    have hk0 : 0 ≤ rfindChar '.' f := rfindChar_nonneg_of_mem hd
    have hdotl : rfindChar '.' (d ++ '/' :: f) =
        (d.length : Int) + (rfindChar '.' f + 1) := by
      rw [rfindChar_append_mem d (List.mem_cons_of_mem _ hd), rfindChar,
        if_pos hk0]
    have hshift := hasNonDot_shift d f (rfindChar '.' f)
    by_cases hb : hasNonDot f (-1 + 1) (rfindChar '.' f) = true
    · have hbl : hasNonDot (d ++ '/' :: f) ((d.length : Int) + 1)
          ((d.length : Int) + (rfindChar '.' f + 1)) = true := by
        rw [hshift]; exact hb
      have hL : splitextRootL (d ++ '/' :: f) =
          d ++ '/' :: f.take (rfindChar '.' f).toNat := by
        simp only [splitextRootL, rfind_slash_append hf, hdotl]
        rw [if_pos (by omega), if_pos hbl]
        have htn : ((d.length : Int) + (rfindChar '.' f + 1)).toNat =
            d.length + ((rfindChar '.' f).toNat + 1) := by omega
        rw [htn, take_append_cons]
      have hR : splitextRootL f = f.take (rfindChar '.' f).toNat := by
        simp only [splitextRootL, hsepf]
        rw [if_pos (by omega), if_pos hb]
      have hfs : ('/' : Char) ∉ f.take (rfindChar '.' f).toNat :=
        fun hm => hf (List.take_subset _ _ hm)
      rw [hL, hR, basenameL_append hfs, basenameL_no_slash hfs]
    · have hbl : ¬ hasNonDot (d ++ '/' :: f) ((d.length : Int) + 1)
          ((d.length : Int) + (rfindChar '.' f + 1)) = true := by
        rw [hshift]; exact hb
      have hL : splitextRootL (d ++ '/' :: f) = d ++ '/' :: f := by
        simp only [splitextRootL, rfind_slash_append hf, hdotl]
        rw [if_pos (by omega), if_neg hbl]
      have hR : splitextRootL f = f := by
        simp only [splitextRootL, hsepf]
        rw [if_pos (by omega), if_neg hb]
      rw [hL, hR, basenameL_append hf, basenameL_no_slash hf]
  · -- no dot in `f`: no extension is stripped on either side
    have hdotf : rfindChar '.' f = -1 := rfindChar_of_not_mem hd
    have hdotl : rfindChar '.' (d ++ '/' :: f) = rfindChar '.' d := by
      apply rfindChar_append_not_mem
      intro hm
      rcases List.mem_cons.mp hm with h1 | h2
      · exact absurd h1 (by decide)
      · exact hd h2
    have hlt : rfindChar '.' d < (d.length : Int) := rfindChar_lt_length _ _
    have hL : splitextRootL (d ++ '/' :: f) = d ++ '/' :: f := by
      simp only [splitextRootL, rfind_slash_append hf, hdotl]
      rw [if_neg (by omega)]
    have hR : splitextRootL f = f := by
      simp only [splitextRootL, hsepf, hdotf]
      rw [if_neg (by omega)]
    rw [hL, hR, basenameL_append hf, basenameL_no_slash hf]

/-! ## Data model of the Lambda orchestrator

Events, records, configuration, collaborator oracles and response bodies.
-/

/-- Python exception, abstracted to its class name and message
(the error notifications interpolate `type(e).__name__` and `str(e)`). -/
structure PyErr where
  ty : String
  msg : String
deriving DecidableEq

/-- One S3 change record.  The source reads
`record['s3']['bucket']['name']` and `record['s3']['object']['key']`;
the nested dictionaries are flattened to two optional fields, `none`
standing for any missing level (whose access raises `KeyError`). -/
structure Rec where
  bucketName : Option String
  objectKey : Option String
deriving DecidableEq

/-- The trigger event: `records = none` models an event dictionary with
no `Records` field at all. -/
structure Event where
  records : Option (List Rec)
deriving DecidableEq

/-- Environment configuration, read from `os.environ.get` (so each value
may be `None`). -/
structure Config where
  thumbnailBucket : Option String
  snsTopicArn : Option String

/-- Structured SNS message content: exactly the data the prose templates
of the source interpolate (success at docs:109-133, per-record error at
docs:148-170, critical at docs:198-219, plain text strings in lamcode). -/
inductive Msg where
  | success (objectKey bucketName thumbnailKey : String)
  | recordError (errType errMsg bucketName objectKey : String)
  | critical (errMsg errType : String)
  | text (s : String)
deriving DecidableEq

/-- Observable collaborator calls, in program order.  An entry is logged
for every attempted call, whether or not the collaborator fails. -/
inductive Act where
  | getObject (bucket key : String)
  | putObject (bucket : Option String) (key : String)
  | publish (topic : Option String) (subject : String)
deriving DecidableEq

/-- Collaborator oracles: S3, PIL and SNS.  Image payloads are opaque
(`Nat` tokens); each operation may raise.  `putObject` and `publish`
receive the configured destination bucket / topic ARN as the code passes
them (possibly `None`, in which case a real boto3 client raises a
parameter-validation error — one more world in this model). -/
structure World where
  getObject : String → String → Except PyErr Nat
  openImage : Nat → Except PyErr Nat
  convertImage : Nat → Except PyErr Nat
  thumbnailImage : Nat → Except PyErr Nat
  saveImage : Nat → Except PyErr Nat
  putObject : Option String → String → Nat → Except PyErr Unit
  publish : Option String → String → Msg → Except PyErr Unit

/-- Response body, i.e. the dictionary/string passed to `json.dumps`.
`success m n t` is `{'message': m, 'records_processed': n, 'timestamp': t}`
(docs:184-188); `fatal e m t` is `{'error': e, 'message': m, 'timestamp': t}`
(docs:233-237); `text s` is `json.dumps` of a plain string (lamcode:53,61).
`json.dumps` always succeeds on these finite string/number dictionaries
and yields their JSON rendering. -/
inductive Body where
  | success (message : String) (recordsProcessed : Nat) (timestamp : String)
  | fatal (error message timestamp : String)
  | text (s : String)
deriving DecidableEq

/-- The `records_processed` field of a response body, when present. -/
def Body.recordsProcessedField : Body → Option Nat
  | .success _ n _ => some n
  | _ => none

/-- Lambda response dictionary `{'statusCode': ..., 'body': ...}`. -/
structure Response where
  statusCode : Nat
  body : Body
deriving DecidableEq

/-- Sequence one logged, fallible operation: perform `res` (logging
`acts` for the attempt), stop on an exception, otherwise continue with
`k`.  This is the explicit form of straight-line Python statements
inside a `try` block. -/
def step {α β : Type} (acts : List Act) (res : Except PyErr α)
    (k : α → List Act × Except PyErr β) : List Act × Except PyErr β :=
  match res with
  | .error e => (acts, .error e)
  | .ok a =>
    let r := k a
    (acts ++ r.1, r.2)

/-- Dictionary access `d[k]`: the value, or `KeyError` if missing. -/
def required (o : Option String) (field : String) : Except PyErr String :=
  match o with
  | some v => .ok v
  | none => .error ⟨"KeyError", field⟩

namespace Docs

/-- Destination key of `src/docs/lambda-function.py:87-88`. -/
def thumbnail_key (key : String) : String :=
  (thumbnailKeyL key.toList).asString

/-- Python `os.path.basename` on strings (docs:88 and docs:138). -/
def basenameS (s : String) : String :=
  (basenameL s.toList).asString

/-- Subject of the per-record error notification (docs:174). -/
def errorSubject (r : Rec) : String :=
  "❌ Error Processing Image: " ++ r.objectKey.getD ("Unknown")

/-- Structured content of the per-record error notification
(docs:148-170): error type and message, plus the bucket/key context
recovered with `.get(..., 'Unknown')`. -/
def errorMessage (e : PyErr) (r : Rec) : Msg :=
  Msg.recordError e.ty e.msg (r.bucketName.getD ("Unknown"))
    (r.objectKey.getD ("Unknown"))

/-- Subject of the success notification (docs:138). -/
def successSubject (key : String) : String :=
  "✓ Thumbnail Generated: " ++ basenameS key

/-- Subject of the critical (invocation-fatal) notification (docs:224). -/
def criticalSubject : String := "🚨 CRITICAL: Lambda Function Error"

/-- Body of the per-record `try` block (docs:47-142): extract bucket and
key, download, decode, normalize color mode, resize, re-encode, derive
the destination key, upload, then publish the success notification. -/
def runRecord (w : World) (cfg : Config) (r : Rec) :
    List Act × Except PyErr Unit :=
  step [] (required r.bucketName ("s3")) fun bucket =>
  step [] (required r.objectKey ("object")) fun key =>
  step [Act.getObject bucket key] (w.getObject bucket key) fun imageData =>
  step [] (w.openImage imageData) fun image0 =>
  step [] (w.convertImage image0) fun image1 =>
  step [] (w.thumbnailImage image1) fun image2 =>
  step [] (w.saveImage image2) fun thumbBytes =>
  step [Act.putObject cfg.thumbnailBucket (thumbnail_key key)]
      (w.putObject cfg.thumbnailBucket (thumbnail_key key) thumbBytes) fun _ =>
  step [Act.publish cfg.snsTopicArn (successSubject key)]
      (w.publish cfg.snsTopicArn (successSubject key)
        (Msg.success key bucket (thumbnail_key key))) fun _ =>
  ([], .ok ())

/-- One loop iteration with its `except` clause (docs:144-179): any
exception from the record body is caught, an error notification is
published, and the loop continues — but the error publish itself is NOT
inside a nested try, so its own exception propagates out of the loop. -/
def handleRecord (w : World) (cfg : Config) (r : Rec) :
    List Act × Except PyErr Unit :=
  match runRecord w cfg r with
  | (log, Except.ok _) => (log, Except.ok ())
  | (log, Except.error e) =>
    match w.publish cfg.snsTopicArn (errorSubject r) (errorMessage e r) with
    | Except.ok _ =>
      (log ++ [Act.publish cfg.snsTopicArn (errorSubject r)], Except.ok ())
    | Except.error e2 =>
      (log ++ [Act.publish cfg.snsTopicArn (errorSubject r)], Except.error e2)

/-- The `for record in event.get('Records', [])` loop (docs:46). -/
def processRecords (w : World) (cfg : Config) :
    List Rec → List Act × Except PyErr Unit
  | [] => ([], Except.ok ())
  | r :: rs =>
    match handleRecord w cfg r with
    | (log, Except.ok _) =>
      let rest := processRecords w cfg rs
      (log ++ rest.1, rest.2)
    | (log, Except.error e) => (log, Except.error e)

/-- `lambda_handler` of `src/docs/lambda-function.py:27-238`.  `now` is
the (opaque) value interpolated for `datetime.now().isoformat()`.  The
outer `except` (docs:194-238) catches anything that escapes the loop,
attempts the critical notification inside its own try/except (the
result is discarded — best effort), and returns the 500 response. -/
def lambda_handler (w : World) (cfg : Config) (now : String) (ev : Event) :
    List Act × Except PyErr Response :=
  let recs := ev.records.getD []
  match processRecords w cfg recs with
  | (log, Except.ok _) =>
    (log, Except.ok ⟨200,
      Body.success ("Thumbnail generation completed successfully")
        recs.length now⟩)
  | (log, Except.error e) =>
    let _ := w.publish cfg.snsTopicArn criticalSubject (Msg.critical e.msg e.ty)
    (log ++ [Act.publish cfg.snsTopicArn criticalSubject],
      Except.ok ⟨500, Body.fatal ("Lambda execution failed") e.msg now⟩)

end Docs

namespace Lamcode

/-- Destination key of `src/lamcode.py:34` (no basename step). -/
def thumbnail_key (key : String) : String :=
  (lamcodeThumbnailKeyL key.toList).asString

/-- Text of the success notification (lamcode:43). -/
def successMessage (key bucket : String) (cfg : Config) : Msg :=
  Msg.text ("Image Processing Complete!\nOriginal Image: " ++ key ++
    "\nOriginal Bucket: " ++ bucket ++ "\nThumbnail Created: " ++
    thumbnail_key key ++ "\nThumbnail Bucket: " ++
    cfg.thumbnailBucket.getD ("None"))

/-- One loop iteration of `src/lamcode.py:19-51`: same pipeline as the
docs version but with no color-mode conversion, no basename in the
destination key, and no per-record exception handling at all. -/
def runRecord (w : World) (cfg : Config) (r : Rec) :
    List Act × Except PyErr Unit :=
  step [] (required r.bucketName ("s3")) fun bucket =>
  step [] (required r.objectKey ("object")) fun key =>
  step [Act.getObject bucket key] (w.getObject bucket key) fun imageData =>
  step [] (w.openImage imageData) fun image0 =>
  step [] (w.thumbnailImage image0) fun image1 =>
  step [] (w.saveImage image1) fun thumbBytes =>
  step [Act.putObject cfg.thumbnailBucket (thumbnail_key key)]
      (w.putObject cfg.thumbnailBucket (thumbnail_key key) thumbBytes) fun _ =>
  step [Act.publish cfg.snsTopicArn ("Image Thumbnail Generated Successfully")]
      (w.publish cfg.snsTopicArn ("Image Thumbnail Generated Successfully")
        (successMessage key bucket cfg)) fun _ =>
  ([], .ok ())

/-- The `for record in event['Records']` loop: the first exception
aborts the iteration and propagates to the handler's only `except`. -/
def processRecords (w : World) (cfg : Config) :
    List Rec → List Act × Except PyErr Unit
  | [] => ([], Except.ok ())
  | r :: rs =>
    match runRecord w cfg r with
    | (log, Except.ok _) =>
      let rest := processRecords w cfg rs
      (log ++ rest.1, rest.2)
    | (log, Except.error e) => (log, Except.error e)

/-- The `except` clause of `src/lamcode.py:54-61`: publish the error
notification — NOT guarded by any inner try, so a publish failure
propagates out of `lambda_handler` itself — then return the 500
response. -/
def fatalPath (w : World) (cfg : Config) (e : PyErr) (log : List Act) :
    List Act × Except PyErr Response :=
  match w.publish cfg.snsTopicArn ("Image Processing Error")
      (Msg.text ("Error: " ++ e.msg)) with
  | Except.ok _ =>
    (log ++ [Act.publish cfg.snsTopicArn ("Image Processing Error")],
      Except.ok ⟨500, Body.text ("Error: " ++ e.msg)⟩)
  | Except.error e2 =>
    (log ++ [Act.publish cfg.snsTopicArn ("Image Processing Error")],
      Except.error e2)

/-- `lambda_handler` of `src/lamcode.py:17-61`.  `event['Records']` on a
dictionary without that field raises `KeyError('Records')` (modelled
with message `Records`; Python renders the repr with quotes), caught by
the outer `except`. -/
def lambda_handler (w : World) (cfg : Config) (ev : Event) :
    List Act × Except PyErr Response :=
  match ev.records with
  | none => fatalPath w cfg ⟨"KeyError", "Records"⟩ []
  | some recs =>
    match processRecords w cfg recs with
    | (log, Except.ok _) =>
      (log, Except.ok ⟨200, Body.text ("Thumbnails generated successfully!")⟩)
    | (log, Except.error e) => fatalPath w cfg e log

end Lamcode

/-! ## Image transformer

Concrete model of the PIL operations used at docs:61-82 / lamcode:27-31:
color-mode normalization (docs:67-73) and `Image.thumbnail` with a
`(200, 200)` bounding box.
-/

/-- PIL color modes relevant to the conversion test
`image.mode in ('RGBA', 'LA', 'P')` (docs:67); `L` and `CMYK` stand for
the remaining plain opaque modes. -/
inductive Mode where
  | RGB
  | RGBA
  | LA
  | P
  | L
  | CMYK
deriving DecidableEq

/-- One pixel as channel values 0..255.  For `RGBA` all four channels
are used; for `LA` the gray value is in `r` and the alpha in `a`; for
`P` the palette lookup is pre-applied, so `r g b a` hold the RGBA value
the palette maps the index to; plain opaque modes ignore `a`. -/
structure Pixel where
  r : Nat
  g : Nat
  b : Nat
  a : Nat
deriving DecidableEq

def whitePixel : Pixel := ⟨255, 255, 255, 255⟩

/-- A decoded PIL image. -/
structure Img where
  mode : Mode
  width : Nat
  height : Nat
  pix : Nat → Nat → Pixel

/-- `image.convert('RGBA')` on a palette image (docs:71): resolve the
palette (already pre-applied in `pix`, see `Pixel`) and switch the mode. -/
def pToRGBA (img : Img) : Img :=
  { img with mode := Mode.RGBA }

/-- Pillow's `MULDIV255(a, b)` = `((a*b + 128) >> 8) + (a*b + 128)) >> 8`,
the exact integer division by 255 used when pasting with a mask. -/
def muldiv255 (a b : Nat) : Nat :=
  let t := a * b + 128
  (t / 256 + t) / 256

/-- One channel of Pillow's `paste` with an 8-bit mask:
`BLEND(mask, bg, src) = MULDIV255(bg, 255 - mask) + MULDIV255(src, mask)`. -/
def blendChannel (bg src a : Nat) : Nat :=
  muldiv255 bg (255 - a) + muldiv255 src a

/-- The color-mode normalization block (docs:67-73).  For `RGBA`, `LA`
and `P` a white `RGB` background of the same size is created and the
image pasted onto it; `P` is first converted to `RGBA`.  The paste mask
is `image.split()[-1] if image.mode == 'RGBA' else None` — so `RGBA`
(and converted `P`) images are alpha-blended onto white, while an `LA`
image is pasted with no mask: PIL converts it to the background's `RGB`
mode (replicating the gray channel, discarding alpha) and overwrites
the background wholesale.  Other modes are left untouched. -/
def normalizeImage (img : Img) : Img :=
  if img.mode = Mode.RGBA ∨ img.mode = Mode.LA ∨ img.mode = Mode.P then
    let img2 := if img.mode = Mode.P then pToRGBA img else img
    let pasted : Nat → Nat → Pixel :=
      if img2.mode = Mode.RGBA then
        fun x y =>
          let s := img2.pix x y
          ⟨blendChannel 255 s.r s.a, blendChannel 255 s.g s.a,
            blendChannel 255 s.b s.a, 255⟩
      else
        fun x y =>
          let s := img2.pix x y
          ⟨s.r, s.r, s.r, 255⟩
    { mode := Mode.RGB, width := img.width, height := img.height, pix := pasted }
  else img

/-- Pillow's `round_aspect(number, key)` inside `Image.thumbnail`:
`max(min(math.floor(number), math.ceil(number), key=key), 1)` (Python's
two-argument `min` with a key returns the first argument on ties).
Exact rationals stand in for the C doubles. -/
def roundAspect (q : ℚ) (key : Nat → ℚ) : Nat :=
  max (if key ⌊q⌋.toNat ≤ key ⌈q⌉.toNat then ⌊q⌋.toNat else ⌈q⌉.toNat) 1

/-- `Image.thumbnail((200, 200), ...)` (docs:76 / lamcode:28), the size
computation of Pillow's `Image.thumbnail`: return unchanged when the
image already fits the box; otherwise shrink the larger-ratio axis to
200 and round the other to the aspect ratio. -/
def thumbnailDims (w h : Nat) : Nat × Nat :=
  if 200 ≥ w ∧ 200 ≥ h then (w, h)
  else
    let aspect : ℚ := (w : ℚ) / (h : ℚ)
    if (200 : ℚ) / 200 ≥ aspect then
      (roundAspect (200 * aspect) (fun n => |aspect - (n : ℚ) / 200|), 200)
    else
      (200, roundAspect (200 / aspect)
        (fun n => if n = 0 then 0 else |aspect - (200 : ℚ) / (n : ℚ)|))

lemma muldiv255_zero (c : Nat) : muldiv255 c 0 = 0 := by
  simp [muldiv255]

lemma muldiv255_full : muldiv255 255 255 = 255 := by decide

lemma blendChannel_transparent (c : Nat) : blendChannel 255 c 0 = 255 := by
  simp [blendChannel, muldiv255_zero, muldiv255_full]

lemma roundAspect_eq_floor_or_ceil (q : ℚ) (key : Nat → ℚ) (hq : 0 < q) :
    roundAspect q key = ⌊q⌋.toNat ∨ roundAspect q key = ⌈q⌉.toNat := by
  have hceil : 1 ≤ ⌈q⌉ := Int.ceil_pos.mpr hq
  unfold roundAspect
  by_cases hfl : 1 ≤ ⌊q⌋
  · have h1 : 1 ≤ ⌊q⌋.toNat := by omega
    have h2 : 1 ≤ ⌈q⌉.toNat := by omega
    split
    · left
      omega
    · right
      omega
  · -- ⌊q⌋ ≤ 0, so with 0 < q we get ⌊q⌋ = 0 and ⌈q⌉ = 1
    have hfl0 : ⌊q⌋ = 0 := by
      have := Int.floor_nonneg.mpr (le_of_lt hq)
      omega
    have hq1 : q < 1 := by
      have := Int.lt_floor_add_one q
      rw [hfl0] at this
      simpa using this
    have hc1 : ⌈q⌉ = 1 := by
      have h2 : ⌈q⌉ ≤ 1 := Int.ceil_le.mpr (le_of_lt hq1)
      omega
    rw [hfl0, hc1]
    right
    split <;> simp

lemma roundAspect_le (q : ℚ) (key : Nat → ℚ) (hq : 0 < q) (hle : q ≤ 200) :
    roundAspect q key ≤ 200 := by
  have hfc : (⌊q⌋ : Int) ≤ ⌈q⌉ := Int.floor_le_ceil q
  have hc : ⌈q⌉ ≤ 200 := Int.ceil_le.mpr (by exact_mod_cast hle)
  rcases roundAspect_eq_floor_or_ceil q key hq with h | h <;> rw [h] <;> omega

/-! ## Concrete collaborators for evaluation

Worlds and records used by the closed counterexamples and witnesses.
-/

/-- Environment configuration with both variables set. -/
def cfgEx : Config := ⟨some ("thumb-bucket"), some ("topic-arn")⟩

/-- A world where every collaborator call succeeds. -/
def wOk : World where
  getObject := fun _ _ => .ok 0
  openImage := fun _ => .ok 1
  convertImage := fun i => .ok i
  thumbnailImage := fun i => .ok i
  saveImage := fun _ => .ok 2
  putObject := fun _ _ _ => .ok ()
  publish := fun _ _ _ => .ok ()

/-- Like `wOk`, but S3 `get_object` raises `NoSuchKey` for the key
`a.png`; SNS publishing works. -/
def wFetchFail : World :=
  { wOk with getObject := fun _ k =>
      if k = "a.png" then .error ⟨"NoSuchKey", "a.png not found"⟩ else .ok 0 }

/-- Like `wOk`, but `Image.open` raises for every payload. -/
def wDecodeFail : World :=
  { wOk with openImage := fun _ =>
      Except.error ⟨"UnidentifiedImageError", "cannot identify image file"⟩ }

/-- A world in which S3 `get_object` always raises and every SNS publish
also raises (an SNS outage or a misconfigured topic). -/
def wSnsDown : World :=
  { wOk with
    getObject := fun _ _ => Except.error ⟨"NoSuchKey", "missing"⟩
    publish := fun _ _ _ => Except.error ⟨"AuthorizationError", "denied"⟩ }

def recA : Rec := ⟨some ("src-bucket"), some ("a.png")⟩

def recB : Rec := ⟨some ("src-bucket"), some ("b.png")⟩

def recC : Rec := ⟨some ("src-bucket"), some ("c.png")⟩

/-! ## Claims -/

/-- C2, counterexample: `src/docs/lambda-function.py` reads the records
with `event.get('Records', [])` (line 46), so an event with no `Records`
field at all is treated as an empty batch: the handler returns status
200 (not 500) with `records_processed = 0`, and attempts no publish at
all (empty action log), contradicting the claimed 500-plus-notification
behavior. -/
theorem c2_counterexample :
    Docs.lambda_handler wOk cfgEx ("t") ⟨none⟩ =
      ([], Except.ok ⟨200,
        Body.success ("Thumbnail generation completed successfully") 0 ("t")⟩) := by
  rfl

/-- C2 (amended): an event without the `Records` field is handled
differently by the two implementations.  `src/docs/lambda-function.py`
treats it as an empty batch (status 200, zero records, no publish);
`src/lamcode.py` raises `KeyError` at `event['Records']` (line 19),
reaching its except-clause: exactly one fatal publish is attempted and
the 500 response with the error text is returned — but that publish is
not best-effort: if it raises, the exception propagates out of the
handler. -/
theorem c2_missing_records (w : World) (cfg : Config) (now : String) :
    Docs.lambda_handler w cfg now ⟨none⟩ =
      ([], Except.ok ⟨200,
        Body.success ("Thumbnail generation completed successfully") 0 now⟩) ∧
    (w.publish cfg.snsTopicArn ("Image Processing Error")
        (Msg.text ("Error: Records")) = Except.ok () →
      Lamcode.lambda_handler w cfg ⟨none⟩ =
        ([Act.publish cfg.snsTopicArn ("Image Processing Error")],
          Except.ok ⟨500, Body.text ("Error: Records")⟩)) ∧
    (∀ e2 : PyErr,
      w.publish cfg.snsTopicArn ("Image Processing Error")
          (Msg.text ("Error: Records")) = Except.error e2 →
      Lamcode.lambda_handler w cfg ⟨none⟩ =
        ([Act.publish cfg.snsTopicArn ("Image Processing Error")],
          Except.error e2)) := by
  have hmsg : ("Error: " ++ "Records" : String) = "Error: Records" := by decide
  refine ⟨rfl, ?_, ?_⟩
  · intro hp
    simp only [Lamcode.lambda_handler, Lamcode.fatalPath, hmsg, hp]
    rfl
  · intro e2 hp
    simp only [Lamcode.lambda_handler, Lamcode.fatalPath, hmsg, hp]
    rfl

/-- C2, witness: in the all-succeeding world, the lamcode handler on a
record-less event publishes once and returns the 500 response. -/
theorem c2_witness :
    Lamcode.lambda_handler wOk cfgEx ⟨none⟩ =
      ([Act.publish cfgEx.snsTopicArn ("Image Processing Error")],
        Except.ok ⟨500, Body.text ("Error: Records")⟩) :=
  (c2_missing_records wOk cfgEx ("t")).2.1 rfl

/-- C4, counterexample: `src/lamcode.py:34` interpolates
`os.path.splitext(key)[0]` without taking the basename, so the directory
prefix of the source key survives into the destination key:
`source/photo.png` maps to `thumbnails/source/photo_thumb.jpg`, not to
the claimed `thumbnails/photo_thumb.jpg`. -/
theorem c4_counterexample :
    Lamcode.thumbnail_key ("source/photo.png") =
      "thumbnails/source/photo_thumb.jpg" ∧
    Lamcode.thumbnail_key ("source/photo.png") ≠
      "thumbnails/photo_thumb.jpg" := by
  constructor <;> decide

/-- C4 (amended): in `src/docs/lambda-function.py` the destination key is
directory-independent — prefixing any directory to a slash-free file
name does not change the derived key — and `source/photo.png` maps to
`thumbnails/photo_thumb.jpg`; the simplified `src/lamcode.py` omits the
basename step and keeps the directory prefix. -/
theorem c4_key_derivation :
    (∀ (d f : List Char), ('/' : Char) ∉ f →
      thumbnailKeyL (d ++ '/' :: f) = thumbnailKeyL f) ∧
    Docs.thumbnail_key ("source/photo.png") = "thumbnails/photo_thumb.jpg" ∧
    Lamcode.thumbnail_key ("source/photo.png") =
      "thumbnails/source/photo_thumb.jpg" := by
  refine ⟨fun d f hf => ?_, by decide, by decide⟩
  unfold thumbnailKeyL
  rw [basename_splitextRoot_append hf]

/-- C4, witness: the directory-independence part of `c4_key_derivation`
applied to the concrete key `source/photo.png`. -/
theorem c4_witness :
    thumbnailKeyL (("source").toList ++ '/' :: ("photo.png").toList) =
      thumbnailKeyL (("photo.png").toList) :=
  c4_key_derivation.1 (("source").toList) (("photo.png").toList) (by decide)

/-- C8, counterexample: on an event with an empty `Records` list,
`src/lamcode.py` does return 200 with no collaborator calls, but its
body is `json.dumps('Thumbnails generated successfully!')` — a plain
string with no `records_processed` field at all, so the claimed
`records_processed == 0` does not hold of that implementation. -/
theorem c8_counterexample :
    (Lamcode.lambda_handler wOk cfgEx ⟨some []⟩).2 =
      Except.ok ⟨200, Body.text ("Thumbnails generated successfully!")⟩ ∧
    Body.recordsProcessedField
      (Body.text ("Thumbnails generated successfully!")) = none := by
  exact ⟨rfl, rfl⟩

/-- C8 (amended): for an event whose `Records` list is empty, both
handlers perform no fetch, no upload and no publish (empty action log)
and return status 200; the docs implementation reports
`records_processed = 0`, while lamcode returns a fixed success string
with no record count. -/
theorem c8_empty_batch (w : World) (cfg : Config) (now : String) :
    Docs.lambda_handler w cfg now ⟨some []⟩ =
      ([], Except.ok ⟨200,
        Body.success ("Thumbnail generation completed successfully") 0 now⟩) ∧
    Lamcode.lambda_handler w cfg ⟨some []⟩ =
      ([], Except.ok ⟨200, Body.text ("Thumbnails generated successfully!")⟩) := by
  exact ⟨rfl, rfl⟩

/-- C9, counterexample: for the bare-extension key `.png`, neither
implementation produces the claimed `thumbnails/_thumb.jpg`. -/
theorem c9_counterexample :
    Docs.thumbnail_key (".png") ≠ "thumbnails/_thumb.jpg" ∧
    Lamcode.thumbnail_key (".png") ≠ "thumbnails/_thumb.jpg" := by
  constructor <;> decide

/-- C9 (amended): `os.path.splitext` treats a leading dot as part of the
file name (hidden-file rule), not as an extension separator, so the key
`.png` keeps its full base name `.png` and both implementations derive
`thumbnails/.png_thumb.jpg`. -/
theorem c9_bare_extension_key :
    Docs.thumbnail_key (".png") = "thumbnails/.png_thumb.jpg" ∧
    Lamcode.thumbnail_key (".png") = "thumbnails/.png_thumb.jpg" := by
  constructor <;> decide

/-- When every per-record error publish succeeds, the record-level
except-clause (docs:144-179) always completes: each record yields a
normal continuation of the loop regardless of how its pipeline failed. -/
lemma docs_handleRecord_ok (w : World) (cfg : Config) (r : Rec)
    (hpub : ∀ e : PyErr,
      w.publish cfg.snsTopicArn (Docs.errorSubject r) (Docs.errorMessage e r) =
        Except.ok ()) :
    ∃ log, Docs.handleRecord w cfg r = (log, Except.ok ()) := by
  cases hr : Docs.runRecord w cfg r with
  | mk lg res =>
    cases res with
    | ok u => exact ⟨lg, by simp only [Docs.handleRecord, hr]⟩
    | error e =>
      exact ⟨lg ++ [Act.publish cfg.snsTopicArn (Docs.errorSubject r)],
        by simp only [Docs.handleRecord, hr, hpub e]⟩

/-- When every per-record error publish succeeds, the docs loop
processes every record of the batch and the accumulated action log is
the concatenation of the per-record logs. -/
lemma docs_processRecords_all_ok (w : World) (cfg : Config)
    (hpub : ∀ (r : Rec) (e : PyErr),
      w.publish cfg.snsTopicArn (Docs.errorSubject r) (Docs.errorMessage e r) =
        Except.ok ())
    (recs : List Rec) :
    Docs.processRecords w cfg recs =
      ((recs.map fun r => (Docs.handleRecord w cfg r).1).flatten,
        Except.ok ()) := by
  induction recs with
  | nil => simp [Docs.processRecords]
  | cons r rs ih =>
    obtain ⟨lg, hlg⟩ := docs_handleRecord_ok w cfg r (hpub r)
    have h1 : (Docs.handleRecord w cfg r).1 = lg := by rw [hlg]
    simp only [Docs.processRecords, hlg, ih, List.map_cons, List.flatten_cons, h1]

/-- C1, counterexample: in `src/docs/lambda-function.py` the per-record
error publish (lines 172-176) is not guarded by any inner try, so when
record 1 of 2 fails to download AND SNS is down, the failure of record 1
aborts the whole batch: record 2 is never fetched (its `getObject` is
absent from the log) and the invocation returns 500 — contradicting
"still processes records i+1..N; a single record's failure never aborts
the batch". -/
theorem c1_counterexample :
    Docs.lambda_handler wSnsDown cfgEx ("t") ⟨some [recA, recB]⟩ =
      ([Act.getObject ("src-bucket") ("a.png"),
        Act.publish (some ("topic-arn")) ("❌ Error Processing Image: a.png"),
        Act.publish (some ("topic-arn")) ("🚨 CRITICAL: Lambda Function Error")],
        Except.ok ⟨500, Body.fatal ("Lambda execution failed") ("denied") ("t")⟩) := by
  rfl

/-- C1 (amended): in `src/docs/lambda-function.py`, provided the
per-record failure-notification publish succeeds, a failure of any
record at any pipeline step is converted into that notification and the
remaining records are still processed: the handler completes the whole
batch (the log is the concatenation of every record's own actions) and
returns 200 with `records_processed = N`.  If the failure-notification
publish itself raises, the batch is aborted with a 500 response
(see the counterexample).  `src/lamcode.py` has no per-record isolation
at all: the first failing record ends the iteration, later records are
never fetched, and the invocation returns 500 (second conjunct, where
`a.png` fails to download and `b.png` is never requested). -/
theorem c1_batch_isolation (w : World) (cfg : Config) (now : String)
    (recs : List Rec)
    (hpub : ∀ (r : Rec) (e : PyErr),
      w.publish cfg.snsTopicArn (Docs.errorSubject r) (Docs.errorMessage e r) =
        Except.ok ()) :
    Docs.lambda_handler w cfg now ⟨some recs⟩ =
      ((recs.map fun r => (Docs.handleRecord w cfg r).1).flatten,
        Except.ok ⟨200,
          Body.success ("Thumbnail generation completed successfully")
            recs.length now⟩) ∧
    Lamcode.lambda_handler wFetchFail cfgEx ⟨some [recA, recB]⟩ =
      ([Act.getObject ("src-bucket") ("a.png"),
        Act.publish (some ("topic-arn")) ("Image Processing Error")],
        Except.ok ⟨500, Body.text ("Error: a.png not found")⟩) := by
  constructor
  · simp only [Docs.lambda_handler, Option.getD_some,
      docs_processRecords_all_ok w cfg hpub recs]
  · rfl

/-- C1, witness: two records where the first fails to download and SNS
works; the amended theorem yields the 200 / `records_processed = 2`
completion. -/
theorem c1_witness :
    Docs.lambda_handler wFetchFail cfgEx ("t") ⟨some [recA, recB]⟩ =
      (([recA, recB].map fun r => (Docs.handleRecord wFetchFail cfgEx r).1).flatten,
        Except.ok ⟨200,
          Body.success ("Thumbnail generation completed successfully") 2 ("t")⟩) :=
  (c1_batch_isolation wFetchFail cfgEx ("t") [recA, recB] (fun _ _ => rfl)).1

/-- C3: whenever the record iteration of `src/docs/lambda-function.py`
completes without an exception escaping the loop, the handler returns
status 200 and `records_processed` equal to the number of records
delivered in the event (regardless of how many records individually
failed). -/
theorem c3_completion_response (w : World) (cfg : Config) (now : String)
    (ev : Event)
    (h : (Docs.processRecords w cfg (ev.records.getD [])).2 = Except.ok ()) :
    (Docs.lambda_handler w cfg now ev).2 =
      Except.ok ⟨200,
        Body.success ("Thumbnail generation completed successfully")
          (ev.records.getD []).length now⟩ := by
  simp only [Docs.lambda_handler]
  cases hp : Docs.processRecords w cfg (ev.records.getD []) with
  | mk log res =>
    rw [hp] at h
    simp only at h
    cases res with
    | ok u => rfl
    | error e => exact absurd h (by simp)

/-- C3, witness: a one-record batch whose only record fails to decode
(SNS up): the iteration completes and the response still reports
status 200 with `records_processed = 1`. -/
theorem c3_witness :
    (Docs.lambda_handler wDecodeFail cfgEx ("t") ⟨some [recA]⟩).2 =
      Except.ok ⟨200,
        Body.success ("Thumbnail generation completed successfully") 1 ("t")⟩ :=
  c3_completion_response wDecodeFail cfgEx ("t") ⟨some [recA]⟩ rfl

/-- C5, code bug: the spec requires a failed outcome-notification publish
to be logged and swallowed, never altering the final response — but in
`src/docs/lambda-function.py` the per-record error publish (lines
172-176) sits outside any inner try.  Evaluation at the failing input:
with one record whose download raises and SNS down, that publish failure
escalates to the outer handler and flips the response from the expected
200 to 500 (first conjunct); with the identical record failure but SNS
up, the response is the documented 200 (second conjunct). -/
theorem c5_publish_failure_escalates :
    (Docs.lambda_handler wSnsDown cfgEx ("t") ⟨some [recC]⟩).2 =
      Except.ok ⟨500, Body.fatal ("Lambda execution failed") ("denied") ("t")⟩ ∧
    (Docs.lambda_handler wFetchFail cfgEx ("t") ⟨some [recA]⟩).2 =
      Except.ok ⟨200,
        Body.success ("Thumbnail generation completed successfully") 1 ("t")⟩ := by
  exact ⟨rfl, rfl⟩

/-- C10: for every event, configuration, timestamp and collaborator
behavior, `lambda_handler` of `src/docs/lambda-function.py` returns
normally (never `Except.error`, i.e. no exception reaches the invoker,
even when the critical publish itself fails — its result is discarded at
docs:221-228), with statusCode exactly 200 or 500 and a body that is one
of the two `json.dumps`-serialized dictionaries of docs:184-188 /
docs:233-237. -/
theorem c10_total_response (w : World) (cfg : Config) (now : String)
    (ev : Event) :
    ∃ resp : Response,
      (Docs.lambda_handler w cfg now ev).2 = Except.ok resp ∧
      (resp.statusCode = 200 ∨ resp.statusCode = 500) ∧
      ((∃ n, resp.body =
          Body.success ("Thumbnail generation completed successfully") n now) ∨
        (∃ m, resp.body = Body.fatal ("Lambda execution failed") m now)) := by
  simp only [Docs.lambda_handler]
  cases hp : Docs.processRecords w cfg (ev.records.getD []) with
  | mk log res =>
    cases res with
    | ok u => exact ⟨_, rfl, Or.inl rfl, Or.inl ⟨_, rfl⟩⟩
    | error e => exact ⟨_, rfl, Or.inr rfl, Or.inr ⟨_, rfl⟩⟩

/-- A fully transparent black `LA` (gray + alpha) test image. -/
def laGhost : Img := ⟨Mode.LA, 1, 1, fun _ _ => ⟨0, 0, 0, 0⟩⟩

/-- A fully transparent colored `RGBA` test image. -/
def rgbaGhost : Img := ⟨Mode.RGBA, 1, 1, fun _ _ => ⟨10, 20, 30, 0⟩⟩

/-- C6, counterexample: an `LA` image carries an alpha channel, but the
paste at docs:72 passes `mask=None` for it (`image.split()[-1] if
image.mode == 'RGBA' else None`), so its alpha is discarded: a fully
transparent black pixel renders as black `(0,0,0)`, not white, in the
normalized output (which is nonetheless alpha-free `RGB`). -/
theorem c6_counterexample :
    laGhost.mode = Mode.LA ∧ (laGhost.pix 0 0).a = 0 ∧
    (normalizeImage laGhost).mode = Mode.RGB ∧
    (normalizeImage laGhost).pix 0 0 ≠ whitePixel := by
  refine ⟨rfl, rfl, rfl, ?_⟩
  decide

/-- C6 (amended): the normalization block (docs:67-73) composites `RGBA`
and palette (`P`, first converted to `RGBA`) images onto an opaque white
background of the same dimensions, so their fully transparent pixels
render as white and the result carries no alpha (`RGB`); an `LA` image
is pasted without its alpha mask, so its gray channel overwrites the
white background and transparency is ignored (though the result is
still alpha-free `RGB`); images in any other (plain opaque) mode pass
through the block unchanged. -/
lemma normalizeImage_rgba {img : Img} (h : img.mode = Mode.RGBA) :
    normalizeImage img = ⟨Mode.RGB, img.width, img.height,
      fun x y => ⟨blendChannel 255 (img.pix x y).r (img.pix x y).a,
        blendChannel 255 (img.pix x y).g (img.pix x y).a,
        blendChannel 255 (img.pix x y).b (img.pix x y).a, 255⟩⟩ := by
  simp [normalizeImage, h]

lemma normalizeImage_p {img : Img} (h : img.mode = Mode.P) :
    normalizeImage img = ⟨Mode.RGB, img.width, img.height,
      fun x y => ⟨blendChannel 255 (img.pix x y).r (img.pix x y).a,
        blendChannel 255 (img.pix x y).g (img.pix x y).a,
        blendChannel 255 (img.pix x y).b (img.pix x y).a, 255⟩⟩ := by
  simp [normalizeImage, pToRGBA, h]

lemma normalizeImage_la {img : Img} (h : img.mode = Mode.LA) :
    normalizeImage img = ⟨Mode.RGB, img.width, img.height,
      fun x y => ⟨(img.pix x y).r, (img.pix x y).r, (img.pix x y).r, 255⟩⟩ := by
  simp [normalizeImage, pToRGBA, h]

lemma normalizeImage_other {img : Img} (h1 : img.mode ≠ Mode.RGBA)
    (h2 : img.mode ≠ Mode.LA) (h3 : img.mode ≠ Mode.P) :
    normalizeImage img = img := by
  simp [normalizeImage, h1, h2, h3]

theorem c6_mode_normalization (img : Img) :
    ((img.mode = Mode.RGBA ∨ img.mode = Mode.P) →
      (normalizeImage img).mode = Mode.RGB ∧
      (normalizeImage img).width = img.width ∧
      (normalizeImage img).height = img.height ∧
      (∀ x y, (img.pix x y).a = 0 →
        (normalizeImage img).pix x y = whitePixel)) ∧
    (img.mode = Mode.LA →
      (normalizeImage img).mode = Mode.RGB ∧
      (normalizeImage img).width = img.width ∧
      (normalizeImage img).height = img.height ∧
      (∀ x y, (normalizeImage img).pix x y =
        ⟨(img.pix x y).r, (img.pix x y).r, (img.pix x y).r, 255⟩)) ∧
    (img.mode ≠ Mode.RGBA → img.mode ≠ Mode.LA → img.mode ≠ Mode.P →
      normalizeImage img = img) := by
  refine ⟨?_, ?_, ?_⟩
  · rintro (h | h)
    · rw [normalizeImage_rgba h]
      refine ⟨rfl, rfl, rfl, fun x y ha => ?_⟩
      simp [ha, blendChannel_transparent, whitePixel]
    · rw [normalizeImage_p h]
      refine ⟨rfl, rfl, rfl, fun x y ha => ?_⟩
      simp [ha, blendChannel_transparent, whitePixel]
  · intro h
    rw [normalizeImage_la h]
    exact ⟨rfl, rfl, rfl, fun x y => rfl⟩
  · exact normalizeImage_other

/-- C6, witness: a fully transparent `RGBA` pixel is normalized to the
opaque white pixel and the image loses its alpha channel. -/
theorem c6_witness :
    (normalizeImage rgbaGhost).mode = Mode.RGB ∧
    (normalizeImage rgbaGhost).pix 0 0 = whitePixel := by
  have h := c6_mode_normalization rgbaGhost
  exact ⟨(h.1 (Or.inl rfl)).1, (h.1 (Or.inl rfl)).2.2.2 0 0 rfl⟩

set_option maxHeartbeats 1000000 in
/-- C7: for every decodable image (positive dimensions), the size
produced by `image.thumbnail((200, 200), LANCZOS)` is at most 200 in
each axis; an image already within the box is returned unchanged (no
upscaling); and when the image is shrunk, the bound-constrained axis is
set to 200 while the other is the floor or ceiling of the exact
aspect-preserving value. -/
theorem c7_thumbnail_bounds (w h : Nat) (hw : 1 ≤ w) (hh : 1 ≤ h) :
    (thumbnailDims w h).1 ≤ 200 ∧ (thumbnailDims w h).2 ≤ 200 ∧
    (w ≤ 200 → h ≤ 200 → thumbnailDims w h = (w, h)) ∧
    (¬ (w ≤ 200 ∧ h ≤ 200) →
      (w ≤ h →
        (thumbnailDims w h).2 = 200 ∧
        ((thumbnailDims w h).1 = ⌊(200 : ℚ) * ((w : ℚ) / (h : ℚ))⌋.toNat ∨
          (thumbnailDims w h).1 = ⌈(200 : ℚ) * ((w : ℚ) / (h : ℚ))⌉.toNat)) ∧
      (h < w →
        (thumbnailDims w h).1 = 200 ∧
        ((thumbnailDims w h).2 = ⌊(200 : ℚ) / ((w : ℚ) / (h : ℚ))⌋.toNat ∨
          (thumbnailDims w h).2 = ⌈(200 : ℚ) / ((w : ℚ) / (h : ℚ))⌉.toNat))) := by
  have hw0 : (0 : ℚ) < (w : ℚ) := by exact_mod_cast Nat.lt_of_lt_of_le Nat.zero_lt_one hw
  have hh0 : (0 : ℚ) < (h : ℚ) := by exact_mod_cast Nat.lt_of_lt_of_le Nat.zero_lt_one hh
  by_cases hfit : 200 ≥ w ∧ 200 ≥ h
  · have hres : thumbnailDims w h = (w, h) := by
      simp only [thumbnailDims]
      rw [if_pos hfit]
    rw [hres]
    exact ⟨hfit.1, hfit.2, fun _ _ => rfl,
      fun habs => absurd ⟨hfit.1, hfit.2⟩ habs⟩
  · by_cases hcmp : (200 : ℚ) / 200 ≥ (w : ℚ) / (h : ℚ)
    · -- portrait or square: width is the scaled axis
      have hasp1 : (w : ℚ) / (h : ℚ) ≤ 1 := by
        have : ((200 : ℚ) / 200) = 1 := by norm_num
        rw [this] at hcmp
        exact hcmp
      have hwh : w ≤ h := by
        have h2 : (w : ℚ) ≤ (h : ℚ) := (div_le_one hh0).mp hasp1
        exact_mod_cast h2
      have hq0 : 0 < (200 : ℚ) * ((w : ℚ) / (h : ℚ)) :=
        mul_pos (by norm_num) (div_pos hw0 hh0)
      have hqle : (200 : ℚ) * ((w : ℚ) / (h : ℚ)) ≤ 200 := by
        calc (200 : ℚ) * ((w : ℚ) / (h : ℚ)) ≤ 200 * 1 :=
          mul_le_mul_of_nonneg_left hasp1 (by norm_num)
        _ = 200 := mul_one 200
      have hres : thumbnailDims w h =
          (roundAspect ((200 : ℚ) * ((w : ℚ) / (h : ℚ)))
            (fun n => |(w : ℚ) / (h : ℚ) - (n : ℚ) / 200|), 200) := by
        simp only [thumbnailDims]
        rw [if_neg hfit, if_pos hcmp]
      rw [hres]
      refine ⟨?_, ?_, fun h1 h2 => absurd ⟨h1, h2⟩ hfit,
        fun _ => ⟨fun _ => ⟨rfl, ?_⟩, fun hlt => by omega⟩⟩
      · show roundAspect ((200 : ℚ) * ((w : ℚ) / (h : ℚ)))
            (fun n => |(w : ℚ) / (h : ℚ) - (n : ℚ) / 200|) ≤ 200
        exact roundAspect_le _ _ hq0 hqle
      · exact Nat.le_refl 200
      · show roundAspect ((200 : ℚ) * ((w : ℚ) / (h : ℚ)))
            (fun n => |(w : ℚ) / (h : ℚ) - (n : ℚ) / 200|) =
            ⌊(200 : ℚ) * ((w : ℚ) / (h : ℚ))⌋.toNat ∨
          roundAspect ((200 : ℚ) * ((w : ℚ) / (h : ℚ)))
            (fun n => |(w : ℚ) / (h : ℚ) - (n : ℚ) / 200|) =
            ⌈(200 : ℚ) * ((w : ℚ) / (h : ℚ))⌉.toNat
        exact roundAspect_eq_floor_or_ceil _ _ hq0
    · -- landscape: height is the scaled axis
      have hasp1 : (1 : ℚ) < (w : ℚ) / (h : ℚ) := by
        push_neg at hcmp
        have : ((200 : ℚ) / 200) = 1 := by norm_num
        rw [this] at hcmp
        exact hcmp
      have hwh : h < w := by
        have h2 : (h : ℚ) < (w : ℚ) := (one_lt_div hh0).mp hasp1
        exact_mod_cast h2
      have hasp0 : 0 < (w : ℚ) / (h : ℚ) := div_pos hw0 hh0
      have hq0 : 0 < (200 : ℚ) / ((w : ℚ) / (h : ℚ)) :=
        div_pos (by norm_num) hasp0
      have hqle : (200 : ℚ) / ((w : ℚ) / (h : ℚ)) ≤ 200 := by
        rw [div_le_iff₀ hasp0]
        calc (200 : ℚ) = 200 * 1 := (mul_one 200).symm
        _ ≤ 200 * ((w : ℚ) / (h : ℚ)) :=
          mul_le_mul_of_nonneg_left (le_of_lt hasp1) (by norm_num)
      have hres : thumbnailDims w h =
          (200, roundAspect ((200 : ℚ) / ((w : ℚ) / (h : ℚ)))
            (fun n => if n = 0 then 0
              else |(w : ℚ) / (h : ℚ) - (200 : ℚ) / (n : ℚ)|)) := by
        simp only [thumbnailDims]
        rw [if_neg hfit, if_neg hcmp]
      rw [hres]
      refine ⟨?_, ?_, fun h1 h2 => absurd ⟨h1, h2⟩ hfit,
        fun _ => ⟨fun hle => by omega, fun _ => ⟨rfl, ?_⟩⟩⟩
      · exact Nat.le_refl 200
      · show roundAspect ((200 : ℚ) / ((w : ℚ) / (h : ℚ)))
            (fun n => if n = 0 then 0
              else |(w : ℚ) / (h : ℚ) - (200 : ℚ) / (n : ℚ)|) ≤ 200
        exact roundAspect_le _ _ hq0 hqle
      · show roundAspect ((200 : ℚ) / ((w : ℚ) / (h : ℚ)))
            (fun n => if n = 0 then 0
              else |(w : ℚ) / (h : ℚ) - (200 : ℚ) / (n : ℚ)|) =
            ⌊(200 : ℚ) / ((w : ℚ) / (h : ℚ))⌋.toNat ∨
          roundAspect ((200 : ℚ) / ((w : ℚ) / (h : ℚ)))
            (fun n => if n = 0 then 0
              else |(w : ℚ) / (h : ℚ) - (200 : ℚ) / (n : ℚ)|) =
            ⌈(200 : ℚ) / ((w : ℚ) / (h : ℚ))⌉.toNat
        exact roundAspect_eq_floor_or_ceil _ _ hq0

/-- C7, witness: a 400x200 image is bounded by the box after resizing,
and a 100x50 image already within the box is returned unchanged. -/
theorem c7_witness :
    (thumbnailDims 400 200).1 ≤ 200 ∧ (thumbnailDims 400 200).2 ≤ 200 ∧
    thumbnailDims 100 50 = (100, 50) :=
  ⟨(c7_thumbnail_bounds 400 200 (by decide) (by decide)).1,
    (c7_thumbnail_bounds 400 200 (by decide) (by decide)).2.1,
    (c7_thumbnail_bounds 100 50 (by decide) (by decide)).2.2.1
      (by decide) (by decide)⟩

end ThumbnailSpec

/-! ## Sanity evaluations

Concrete evaluations of the embedded functions, cross-checked against
CPython's `os.path` semantics and Pillow's `thumbnail` arithmetic.
-/

namespace ThumbnailSpec

example : (thumbnailKeyL (("source/photo.png").toList)).asString =
    "thumbnails/photo_thumb.jpg" := by decide

example : (thumbnailKeyL ((".png").toList)).asString =
    "thumbnails/.png_thumb.jpg" := by decide

example : (lamcodeThumbnailKeyL (("source/photo.png").toList)).asString =
    "thumbnails/source/photo_thumb.jpg" := by decide

example : (thumbnailKeyL (("photo").toList)).asString =
    "thumbnails/photo_thumb.jpg" := by decide

example : (thumbnailKeyL (("a.b/c").toList)).asString =
    "thumbnails/c_thumb.jpg" := by decide

example : (thumbnailKeyL (("dir/..png").toList)).asString =
    "thumbnails/..png_thumb.jpg" := by decide

example : thumbnailDims 400 200 = (200, 100) := by
  norm_num [thumbnailDims, roundAspect]
  decide

example : thumbnailDims 100 50 = (100, 50) := by decide

example : thumbnailDims 50 500 = (20, 200) := by
  norm_num [thumbnailDims, roundAspect]
  decide

example : (normalizeImage ⟨Mode.LA, 1, 1, fun _ _ => ⟨0, 0, 0, 0⟩⟩).pix 0 0 =
    ⟨0, 0, 0, 255⟩ := by decide

example : (normalizeImage ⟨Mode.RGBA, 1, 1, fun _ _ => ⟨10, 20, 30, 0⟩⟩).pix 0 0 =
    whitePixel := by decide

end ThumbnailSpec
